import Mathlib

/-
Verification development for the digilock-zwave-js middleware.

The definitions below are a shallow embedding of the repository's
JavaScript sources:
  - `manufacturer-proprietary.js` (hex payload validation, the
    Manufacturer Proprietary frame sender with its count clamp),
  - `zwave-client.js` (DSK normalization, provisioning entry policy,
    security-class encoding, the command interceptor),
  - `plugins/ZWaveControllerWebsocket.js` (the WebSocket message router
    and its per-command handlers).
JavaScript buffers are `List Nat` (byte values), JavaScript's loosely
typed request fields are explicit inductive types, and thrown errors are
`Except String` results.
-/

set_option maxRecDepth 8000

namespace Digilock

/-! ### Hex payload validation (`hexTo32ByteBuffer`) -/

/-- Character class of the regex `[0-9a-fA-F]` used by `hexTo32ByteBuffer`. -/
def isHexDigitChar (c : Char) : Bool :=
  ('0' ≤ c && c ≤ '9') || ('a' ≤ c && c ≤ 'f') || ('A' ≤ c && c ≤ 'F')

/-- Character class of the regex `\s` (whitespace) used by
`payloadHex.replace(/\s+/g, "")` and by the DSK cleaner. -/
def isJsSpace (c : Char) : Bool :=
  c == ' ' || c == '\t' || c == '\n' || c == '\r' || c == '\x0b' || c == '\x0c'

/-- Numeric value of one hex digit (either case). -/
def hexVal (c : Char) : Nat :=
  if '0' ≤ c && c ≤ '9' then c.toNat - 48
  else if 'a' ≤ c && c ≤ 'f' then c.toNat - 87
  else c.toNat - 55

/-- Node's `Buffer.from(str, "hex")` on an all-hex string: bytes are decoded
two characters at a time and a trailing lone character is silently dropped,
so the result has `⌊n/2⌋` bytes. -/
def bufferFromHex : List Char → List Nat
  | c1 :: c2 :: rest => (16 * hexVal c1 + hexVal c2) :: bufferFromHex rest
  | _ => []

/-- Embedding of `hexTo32ByteBuffer(payloadHex)` from
`manufacturer-proprietary.js`: strip whitespace, require the remainder to
match `^[0-9a-fA-F]+$`, decode with `Buffer.from(·, "hex")`, and require the
decoded buffer to be exactly 32 bytes. -/
def hexTo32ByteBuffer (payloadHex : String) : Except String (List Nat) :=
  let normalized := payloadHex.data.filter (fun c => !(isJsSpace c))
  if normalized.isEmpty || !(normalized.all isHexDigitChar) then
    Except.error "Payload must contain only hex characters 0-9, a-f"
  else
    let buf := bufferFromHex normalized
    if buf.length ≠ 32 then
      Except.error ("vendorPayload must be exactly 32 bytes, got " ++ toString buf.length)
    else
      Except.ok buf

/-- Truth value of a validation result: did `hexTo32ByteBuffer` return a
buffer rather than throw. -/
def hexOk (e : Except String (List Nat)) : Bool :=
  match e with
  | Except.ok _ => true
  | Except.error _ => false

/-! ### The Manufacturer Proprietary custom sender
(`sendManufacturerProprietaryCustom` in `manufacturer-proprietary.js`,
mirrored by `ZWaveLock.sendCustom`) -/

/-- Clamping of the `count` parameter (Step 8 of the sender):
`if (count <= 0) count = 1; if (count > 100) count = 100;`. -/
def clampCount (count : Int) : Int :=
  let c := if count ≤ 0 then 1 else count
  if c > 100 then 100 else c

/-- Result record for one sent frame (`results.push({frameNumber, result})`). -/
structure FrameResult where
  frameNumber : Nat
  result : String
deriving DecidableEq, Repr

/-- The sequential frame loop: frame sends are attempted in order, each via
`await ccMP.sendData(...)`; the first failing frame's error is rethrown
immediately and no further frame is attempted.  `oracle i` is the outcome the
external CC API gives for the i-th send. -/
def runFrames (oracle : Nat → Except String String) : Nat → Nat → Except String (List FrameResult)
  | _, 0 => Except.ok []
  | i, k + 1 =>
    match oracle i with
    | Except.error e => Except.error e
    | Except.ok r =>
      match runFrames oracle (i + 1) k with
      | Except.error e => Except.error e
      | Except.ok rest => Except.ok ({ frameNumber := i + 1, result := r } :: rest)

/-- Hex digit character for a value below 16, lowercase as in
`Buffer.toString("hex")`. -/
def toHexChar (n : Nat) : Char :=
  if n < 10 then Char.ofNat (48 + n) else Char.ofNat (87 + n)

/-- Node's `buffer.toString("hex")`. -/
def bytesToHex (bs : List Nat) : String :=
  String.mk (bs.foldr (fun b acc => toHexChar (b / 16) :: toHexChar (b % 16) :: acc) [])

/-- Return value of a fully successful custom send. -/
structure SendResult where
  nodeId : Int
  count : Int
  vendorPayloadHex : String
  manufacturerId : Int
  results : List FrameResult
deriving DecidableEq, Repr

/-- Embedding of `sendManufacturerProprietaryCustom({nodeId, vendorPayload,
manufacturerId, count})`.  The external collaborators are abstracted as
booleans: `driverExists` (Step 1), `driverReady` (Step 2, including the
wait-for-ready helper resolving), `nodeExists` (Step 4) and `nodeReady`
(Step 5); `oracle` is the per-frame outcome of `ccMP.sendData`.  Payload
length validation is Step 3, count clamping Step 8, and the sequential frame
loop Step 9. -/
def sendManufacturerProprietaryCustom
    (driverExists driverReady nodeExists nodeReady : Bool)
    (oracle : Nat → Except String String)
    (nodeId : Int) (vendorPayload : List Nat) (manufacturerId : Int) (count : Int) :
    Except String SendResult :=
  if !driverExists then Except.error "Driver not started"
  else if !driverReady then Except.error "Timed out waiting for driver ready"
  else if vendorPayload.length ≠ 32 then
    Except.error ("vendorPayload must be exactly 32 bytes, got " ++ toString vendorPayload.length)
  else if !nodeExists then Except.error ("Node " ++ toString nodeId ++ " not found")
  else if !nodeReady then Except.error ("Node " ++ toString nodeId ++ " is not ready yet")
  else
    let c := clampCount count
    match runFrames oracle 0 c.toNat with
    | Except.error e => Except.error e
    | Except.ok results =>
      Except.ok { nodeId := nodeId, count := c, vendorPayloadHex := bytesToHex vendorPayload,
                  manufacturerId := manufacturerId, results := results }

/-- Number of frame results carried by a successful send (`none` when the
call failed). -/
def framesSent (e : Except String SendResult) : Option Nat :=
  match e with
  | Except.ok r => some r.results.length
  | Except.error _ => none

/-! ### DSK normalization (`normalizeDSK` in `zwave-client.js`) -/

/-- Character class of the regex `[0-9]`. -/
def isDecDigitChar (c : Char) : Bool :=
  '0' ≤ c && c ≤ '9'

/-- Character class of the regex `[0-9A-F]` (the cleaned DSK is uppercased
before these tests). -/
def isUpperHexChar (c : Char) : Bool :=
  isDecDigitChar c || ('A' ≤ c && c ≤ 'F')

/-- Grouping of `str.match(/.{1,5}/g)`: split into runs of five characters,
the last run possibly shorter. -/
def chunk5 : List Char → List (List Char)
  | [] => []
  | c1 :: c2 :: c3 :: c4 :: c5 :: rest => [c1, c2, c3, c4, c5] :: chunk5 rest
  | l => [l]

/-- Re-grouped dash-separated form, `match(/.{1,5}/g).join("-")`. -/
def group5 (l : List Char) : String :=
  String.intercalate "-" ((chunk5 l).map String.mk)

/-- Embedding of `normalizeDSK(dsk)`: strip dashes and whitespace, uppercase,
then re-group a 40-decimal-digit or 32-hex-character identifier into
5-character dash-separated blocks; a 40-hex-character input has its first 32
characters extracted (the code also re-tests them and falls back to the last
32, both tests trivially passing once the whole string is hex); anything else
is returned unchanged. -/
def normalizeDSK (dsk : String) : String :=
  let cleaned := (dsk.data.filter (fun c => !(c == '-' || isJsSpace c))).map Char.toUpper
  if cleaned.length == 40 && cleaned.all isDecDigitChar then
    group5 cleaned
  else if cleaned.length == 32 && cleaned.all isUpperHexChar then
    group5 cleaned
  else if cleaned.length == 40 && cleaned.all isUpperHexChar then
    let extracted := cleaned.take 32
    if extracted.all isUpperHexChar then
      group5 extracted
    else
      let extractedLast := cleaned.drop (cleaned.length - 32)
      if extractedLast.all isUpperHexChar then group5 extractedLast else dsk
  else
    dsk

/-! ### Provisioning entries (`provisionSmartStartNode` in `zwave-client.js`,
fed by `handleAddProvisioningEntry` in `ZWaveControllerWebsocket.js`) -/

/-- The `Protocols` enum of zwave-js as consumed by the middleware. -/
inductive Protocols
  | ZWave
  | ZWaveLongRange
deriving DecidableEq, Repr

/-- The `ProvisioningEntryStatus` enum of zwave-js: `Active` means the entry
may trigger SmartStart inclusion. -/
inductive ProvisioningEntryStatus
  | Active
  | Inactive
deriving DecidableEq, Repr

/-- The four security-class booleans of the object-form request field
(`securityClasses: {s2AccessControl, s2Authenticated, s2Unauthenticated,
s0Legacy}`).  Each boolean stands for the JavaScript truthiness test
`=== true || === "true"` applied to the raw field. -/
structure SecurityFlags where
  s2AccessControl : Bool
  s2Authenticated : Bool
  s2Unauthenticated : Bool
  s0Legacy : Bool
deriving DecidableEq, Repr

/-- Shape of the `securityClasses` field of a request entry: absent, an
array of numeric class identifiers, or the object form. -/
inductive SecurityClassesInput
  | absent
  | arr (scs : List Nat)
  | obj (flags : SecurityFlags)
deriving DecidableEq, Repr

/-- First phase of the security-class encoding in `provisionSmartStartNode`:
the `securityClasses` property alone.  An array is filtered to the valid
values {0,1,2,7}; the object form pushes 2, 1, 0, 7 in that order for each
true flag; an absent field contributes nothing. -/
def classesFromInput : SecurityClassesInput → List Nat
  | SecurityClassesInput.absent => []
  | SecurityClassesInput.arr scs =>
      scs.filter (fun sc => sc == 0 || sc == 1 || sc == 2 || sc == 7)
  | SecurityClassesInput.obj f =>
      (if f.s2AccessControl then [2] else []) ++
      (if f.s2Authenticated then [1] else []) ++
      (if f.s2Unauthenticated then [0] else []) ++
      (if f.s0Legacy then [7] else [])

/-- One step of the second phase: an individually-named flag pushes its class
identifier unless already present (`if (!securityClassesArray.includes(sc))
securityClassesArray.push(sc)`). -/
def pushIfFlag (arr : List Nat) (flag : Bool) (sc : Nat) : List Nat :=
  if flag && !(arr.contains sc) then arr ++ [sc] else arr

/-- Full security-class encoding of `provisionSmartStartNode`: classes from
the `securityClasses` property, then the individually-named flags OR-ed in,
in the source's order 2, 1, 0, 7. -/
def buildSecurityClasses (input : SecurityClassesInput) (indiv : SecurityFlags) : List Nat :=
  pushIfFlag
    (pushIfFlag
      (pushIfFlag
        (pushIfFlag (classesFromInput input) indiv.s2AccessControl 2)
        indiv.s2Authenticated 1)
      indiv.s2Unauthenticated 0)
    indiv.s0Legacy 7

/-- The named flag a class identifier decodes to; taken from the decoding
switch in `getProvisioningEntries` (case 0 → s2Unauthenticated, 1 →
s2Authenticated, 2 → s2AccessControl, 7 → s0Legacy). -/
def classFlag (f : SecurityFlags) (sc : Nat) : Bool :=
  if sc == 0 then f.s2Unauthenticated
  else if sc == 1 then f.s2Authenticated
  else if sc == 2 then f.s2AccessControl
  else if sc == 7 then f.s0Legacy
  else false

/-- Protocol string normalization in `provisionSmartStartNode`: only the two
Long-Range spellings map to Long Range, everything else to standard Z-Wave. -/
def parseProtocol (s : String) : Protocols :=
  if s == "ZWaveLongRange" || s == "Z-Wave Long Range" then Protocols.ZWaveLongRange
  else Protocols.ZWave

/-- A provisioning request entry as assembled by `handleAddProvisioningEntry`
and consumed by `provisionSmartStartNode`.  `statusActive` stands for the
test `entry.status === true || entry.status === "active"`; the individual
flags are the handler's booleans `entry.s2AccessControl === true || ===
"true"` and so on. -/
structure EntryRequest where
  dsk : String
  statusActive : Bool
  securityClasses : SecurityClassesInput
  s2AccessControl : Bool
  s2Authenticated : Bool
  s2Unauthenticated : Bool
  s0Legacy : Bool
  supportedProtocols : List Protocols
  protocolStr : String
deriving Repr

/-- A stored provisioning entry, as held by the external provisioning store
(keyed by DSK). -/
structure StoredEntry where
  dsk : String
  status : ProvisioningEntryStatus
  protocol : Protocols
  securityClasses : List Nat
  supportedProtocols : List Protocols
deriving DecidableEq, Repr

/-- The store lookup `driver.controller.getProvisioningEntry(dsk)`. -/
def getProvisioningEntry (store : List StoredEntry) (dsk : String) : Option StoredEntry :=
  store.find? (fun e => e.dsk == dsk)

/-- The store write `driver.controller.provisionSmartStartNode(entry)`: an
upsert keyed by DSK (replace the entry with the same DSK, else append). -/
def upsertEntry (store : List StoredEntry) (x : StoredEntry) : List StoredEntry :=
  if store.any (fun e => e.dsk == x.dsk) then
    store.map (fun e => if e.dsk == x.dsk then x else e)
  else
    store ++ [x]

/-- Embedding of `provisionSmartStartNode(entry)` minus the not-ready and
missing-DSK guards (which reject before this logic runs): normalize the DSK,
detect insert-versus-update, apply the status policy (a new entry that lists
Long Range among `supportedProtocols` is forced `Inactive`; otherwise the
requested status decides), normalize the protocol string, encode the
security classes, and upsert.  Returns the updated store and the stored
entry. -/
def provisionSmartStartNode (store : List StoredEntry) (e : EntryRequest) :
    List StoredEntry × StoredEntry :=
  let dsk := normalizeDSK e.dsk
  let isNew := (getProvisioningEntry store dsk).isNone
  let status :=
    if isNew && e.supportedProtocols.contains Protocols.ZWaveLongRange then
      ProvisioningEntryStatus.Inactive
    else if e.statusActive then ProvisioningEntryStatus.Active
    else ProvisioningEntryStatus.Inactive
  let protocol := parseProtocol e.protocolStr
  let classes := buildSecurityClasses e.securityClasses
    ⟨e.s2AccessControl, e.s2Authenticated, e.s2Unauthenticated, e.s0Legacy⟩
  let stored : StoredEntry :=
    { dsk := dsk, status := status, protocol := protocol,
      securityClasses := classes, supportedProtocols := e.supportedProtocols }
  (upsertEntry store stored, stored)

/-! ### Driver start gate (`handleStart` in `ZWaveControllerWebsocket.js`) -/

/-- The slice of a `ZWaveProvisioningClient` the start gate inspects:
whether its `driverReady` flag has been set by the upstream ready event. -/
structure ZClientState where
  driverReady : Bool
deriving DecidableEq, Repr

/-- Outcome of a `START` request.  `proceeds closesExisting` means the
handler went on to (re)initialize the driver; when a client object already
existed it is closed and replaced (both the `initializeDriver` path in
`server.js` and the inline path close any existing client first). -/
inductive StartOutcome
  | alreadyStartedError
  | proceeds (closesExisting : Bool)
deriving DecidableEq, Repr

/-- Embedding of `handleStart`'s gate: the request is rejected with the
already-started error exactly when `this.zwaveClient &&
this.zwaveClient.driverReady`; otherwise the start proceeds. -/
def handleStart (zwaveClient : Option ZClientState) : StartOutcome :=
  match zwaveClient with
  | some c =>
    if c.driverReady then StartOutcome.alreadyStartedError
    else StartOutcome.proceeds true
  | none => StartOutcome.proceeds false

/-! ### Inbound message handling (`handleMessage` in
`ZWaveControllerWebsocket.js`) -/

/-- The fields of a successfully parsed inbound JSON message that
`handleMessage` inspects before dispatching.  `typeField` is `none` when the
message has no `type` key; an empty string is likewise falsy in the
`if (!data.type)` test. -/
structure ParsedMsg where
  typeField : Option String
  requestId : Option String
deriving DecidableEq, Repr

/-- A raw socket frame: either text that `JSON.parse` rejects, or a parsed
message. -/
inductive RawMessage
  | invalidJson
  | json (m : ParsedMsg)
deriving DecidableEq, Repr

/-- The behavior of `JSON.parse` on a raw frame: `none` models a thrown
`SyntaxError`. -/
def jsonParse : RawMessage → Option ParsedMsg
  | RawMessage.invalidJson => none
  | RawMessage.json m => some m

/-- Truthiness of `!data.type`. -/
def typeMissing (m : ParsedMsg) : Bool :=
  match m.typeField with
  | none => true
  | some t => t == ""

/-- Overall outcome of handling one inbound frame: a response sent to the
originating client, or an exception escaping `handleMessage` (nothing sent,
the rejection propagates out of the `message` listener). -/
inductive MessageOutcome
  | response (rtype : String) (message : Option String) (requestId : Option String)
  | escaped
deriving DecidableEq, Repr

/-- Embedding of `handleMessage`.  The try-body parses the frame, sends the
missing-type error when `!data.type`, and otherwise dispatches on the type;
`dispatch` abstracts the switch (every per-command handler wraps its own body
in try/catch and answers with a response, so the dispatch itself is total).
The catch block recomputes `JSON.parse(message).requestId` before answering:
when the frame was not valid JSON this second parse throws again, so no
response is produced and the exception escapes. -/
def handleMessage (raw : RawMessage) (dispatch : ParsedMsg → MessageOutcome) :
    MessageOutcome :=
  match jsonParse raw with
  | some data =>
    if typeMissing data then
      MessageOutcome.response "ERROR" (some "Message must have a type field") data.requestId
    else
      dispatch data
  | none =>
    match jsonParse raw with
    | some d => MessageOutcome.response "ERROR" (some "Unexpected token in JSON") d.requestId
    | none => MessageOutcome.escaped

/-! ### Per-command handlers of the WebSocket router (readiness gates) -/

/-- A response produced by one of the router's per-command handlers.
`respNodes` is the `NODES` response with its data array (node ids),
`respCommand` is the `COMMAND_RESULT` path recording which node id the
command was dispatched to, `respOk` any other success response named by its
type, and `respError` an `ERROR` response with its message. -/
inductive RouterResp
  | respOk (rtype : String)
  | respNodes (nodeIds : List Nat)
  | respCommand (targetNodeId : Int)
  | respError (message : String)
deriving DecidableEq, Repr

/-- Embedding of `handleGetNodes`: when the client is missing or not ready
the handler answers `NODES` with an empty array; otherwise it answers with
the live node list. -/
def handleGetNodes (ready : Bool) (nodeIds : List Nat) : RouterResp :=
  if !ready then RouterResp.respNodes []
  else RouterResp.respNodes nodeIds

/-- Embedding of `handleGetProvisioningEntries`'s gate. -/
def handleGetProvisioningEntries (ready : Bool) : RouterResp :=
  if !ready then RouterResp.respError "Driver not ready"
  else RouterResp.respOk "PROVISIONING_ENTRIES"

/-- Embedding of `handleGetProvisioningEntry`'s gate and lookup. -/
def handleGetProvisioningEntry (ready : Bool) (found : Bool) : RouterResp :=
  if !ready then RouterResp.respError "Driver not ready"
  else if found then RouterResp.respOk "PROVISIONING_ENTRY"
  else RouterResp.respError "Entry not found"

/-- Embedding of `handleAddProvisioningEntry`'s gates: the missing-DSK check
runs before the readiness check. -/
def handleAddProvisioningEntry (ready : Bool) (dsk : String) : RouterResp :=
  if dsk == "" then RouterResp.respError "DSK is required"
  else if !ready then RouterResp.respError "Driver not ready"
  else RouterResp.respOk "PROVISIONING_ENTRY_ADDED"

/-- Embedding of `handleUpdateProvisioningEntryStatus`'s gates.
`activeIsBool` is `typeof active === "boolean"`. -/
def handleUpdateProvisioningEntryStatus (ready : Bool) (dsk : String) (activeIsBool : Bool) :
    RouterResp :=
  if !ready then RouterResp.respError "Driver not ready"
  else if dsk == "" then RouterResp.respError "dsk is required"
  else if !activeIsBool then RouterResp.respError "active must be a boolean"
  else RouterResp.respOk "PROVISIONING_ENTRY_STATUS_UPDATED"

/-- Embedding of `handleDeleteProvisioningEntry`'s gates. -/
def handleDeleteProvisioningEntry (ready : Bool) (dsk : String) : RouterResp :=
  if !ready then RouterResp.respError "Driver not ready"
  else if dsk == "" then RouterResp.respError "dsk is required"
  else RouterResp.respOk "PROVISIONING_ENTRY_DELETED"

/-- Embedding of `handleGetNode`'s gates: readiness, then `parseInt`
validity, then lookup. -/
def handleGetNode (ready : Bool) (validNodeId found : Bool) : RouterResp :=
  if !ready then RouterResp.respError "Driver not ready"
  else if !validNodeId then RouterResp.respError "Invalid nodeId"
  else if found then RouterResp.respOk "NODE"
  else RouterResp.respError "Node not found"

/-! ### `SEND_COMMAND` nodeId coercion (`handleSendCommand` in
`ZWaveControllerWebsocket.js`) -/

/-- A loosely typed JSON request field as the router receives it.  `undef`
is an absent field; numeric fields are modeled as integers (every
`Number.isInteger` test in the handler is about exactly these). -/
inductive JSVal
  | undef
  | nullV
  | intV (n : Int)
  | strV (s : String)
deriving DecidableEq, Repr

/-- Decimal value of a digit string. -/
def decDigitsVal (l : List Char) : Nat :=
  l.foldl (fun acc c => 10 * acc + (c.toNat - 48)) 0

/-- JavaScript's `Number(string)` restricted to the shapes the claims
exercise: surrounding whitespace is trimmed, the empty string is 0, a
decimal integer literal (optionally negative) is its value, and anything
else is NaN (`none`).  Fractional and hex literals are outside the model. -/
def parseJsNumber (s : String) : Option Int :=
  let t := s.data.dropWhile isJsSpace
  let t := (t.reverse.dropWhile isJsSpace).reverse
  if t.isEmpty then some 0
  else if t.all isDecDigitChar then some (decDigitsVal t : Nat)
  else
    match t with
    | '-' :: rest =>
      if !rest.isEmpty && rest.all isDecDigitChar then some (-(decDigitsVal rest : Nat) : Int)
      else none
    | _ => none

/-- JavaScript's `Number(v)`: `undefined` is NaN, `null` is 0, a number is
itself, a string parses per `parseJsNumber`. -/
def jsToNumber : JSVal → Option Int
  | JSVal.undef => none
  | JSVal.nullV => some 0
  | JSVal.intV n => some n
  | JSVal.strV s => parseJsNumber s

/-- Embedding of the nodeId coercion in `handleSendCommand`:
`Number.isInteger(nodeId) ? nodeId : Number(nodeId) || 2`.  An integer value
is used as-is; otherwise `Number(nodeId)` is computed and both NaN and 0 are
falsy, so they fall back to 2. -/
def numericNodeId (nodeId : JSVal) : Int :=
  match nodeId with
  | JSVal.intV n => n
  | v =>
    match jsToNumber v with
    | none => 2
    | some 0 => 2
    | some n => n

/-- Embedding of `handleSendCommand` up to the dispatch of the send:
readiness gate, required `payloadHex`, payload validation via
`hexTo32ByteBuffer`, then the call to `sendManufacturerProprietaryCustom`
targeting `numericNodeId nodeId` (node-level failures happen downstream and
are not a rejection of the nodeId). -/
def handleSendCommand (ready : Bool) (payloadHex : String) (nodeId : JSVal) : RouterResp :=
  if !ready then RouterResp.respError "Driver not ready"
  else if payloadHex == "" then RouterResp.respError "payloadHex is required"
  else
    match hexTo32ByteBuffer payloadHex with
    | Except.error e => RouterResp.respError e
    | Except.ok _ => RouterResp.respCommand (numericNodeId nodeId)

/-! ### The command interceptor
(`setupManufacturerProprietaryCommandHandler` in `ZWaveLock.js`) -/

/-- The slice of an inbound zwave-js command the interceptor inspects:
its command-class identifier, whether it is a `ManufacturerProprietaryCC`
instance, its constructor name, and the fields copied into the published
event.  A missing `endpointIndex` is modeled as 0 (the code applies
`|| 0`). -/
structure InboundCommand where
  ccId : Nat
  isMPInstance : Bool
  ctorName : String
  manufacturerId : Nat
  payload : Option (List Nat)
  endpointIndex : Nat
deriving DecidableEq, Repr

/-- The structured event published for an intercepted vendor command
(`{nodeId, manufacturerId, payload, payloadLength, endpointIndex}`). -/
structure MPCommandData where
  nodeId : Nat
  manufacturerId : Nat
  payload : Option (List Nat)
  payloadLength : Nat
  endpointIndex : Nat
deriving DecidableEq, Repr

/-- Outcome of the wrapped `handleCommand`: either the vendor event is
emitted and the original handler is not invoked, or the command is passed
unmodified to the original handler. -/
inductive HandleCommandOutcome
  | intercepted (event : MPCommandData)
  | passedThrough (command : InboundCommand)
deriving DecidableEq, Repr

/-- Embedding of the wrapped `node.handleCommand` installed by
`setupManufacturerProprietaryCommandHandler`: a command is treated as
Manufacturer Proprietary when its `ccId` is 0x91, or it is an instance of
`ManufacturerProprietaryCC`, or its constructor is named so; such a command
produces the structured event and returns early, every other command is
forwarded to the original handler. -/
def wrappedHandleCommand (nodeId : Nat) (command : InboundCommand) : HandleCommandOutcome :=
  let isManufacturerProprietary :=
    command.ccId == 0x91 || command.isMPInstance ||
    command.ctorName == "ManufacturerProprietaryCC"
  if isManufacturerProprietary then
    HandleCommandOutcome.intercepted
      { nodeId := nodeId
        manufacturerId := command.manufacturerId
        payload := command.payload
        payloadLength := (command.payload.map List.length).getD 0
        endpointIndex := command.endpointIndex }
  else
    HandleCommandOutcome.passedThrough command

/-! ## Helper lemmas -/

/-- When every frame send succeeds, the frame loop returns a result list of
exactly the requested length. -/
theorem runFrames_ok (oracle : Nat → Except String String)
    (h : ∀ i, ∃ r, oracle i = Except.ok r) :
    ∀ (n i : Nat), ∃ rs, runFrames oracle i n = Except.ok rs ∧ rs.length = n := by
  intro n
  induction n with
  | zero => intro i; exact ⟨[], rfl, rfl⟩
  | succ k ih =>
    intro i
    obtain ⟨r, hr⟩ := h i
    obtain ⟨rs, hrs, hlen⟩ := ih (i + 1)
    refine ⟨{ frameNumber := i + 1, result := r } :: rs, ?_, by simp [hlen]⟩
    simp [runFrames, hr, hrs]

/-- When the first failing frame is at offset `k` within the loop bound, the
frame loop returns exactly that frame's error. -/
theorem runFrames_error (oracle : Nat → Except String String) (e : String) :
    ∀ (k n i : Nat), k < n → (∀ j, j < k → ∃ r, oracle (i + j) = Except.ok r) →
    oracle (i + k) = Except.error e →
    runFrames oracle i n = Except.error e := by
  intro k
  induction k with
  | zero =>
    intro n i hn _ hfail
    match n, hn with
    | m + 1, _ =>
      rw [Nat.add_zero] at hfail
      simp [runFrames, hfail]
  | succ k ih =>
    intro n i hn hsucc hfail
    match n, hn with
    | m + 1, hn =>
      obtain ⟨r, hr⟩ := hsucc 0 k.succ_pos
      rw [Nat.add_zero] at hr
      have hrec : runFrames oracle (i + 1) m = Except.error e := by
        apply ih m (i + 1) (Nat.lt_of_succ_lt_succ hn)
        · intro j hj
          obtain ⟨r2, hr2⟩ := hsucc (j + 1) (Nat.succ_lt_succ hj)
          refine ⟨r2, ?_⟩
          rw [show i + 1 + j = i + (j + 1) by omega]
          exact hr2
        · rw [show i + 1 + k = i + (k + 1) by omega]
          exact hfail
      simp [runFrames, hr, hrec]

/-- With an always-succeeding frame oracle and a valid payload, the custom
sender attempts exactly the clamped number of frames. -/
theorem framesSent_eq_clamp (oracle : Nat → Except String String)
    (h : ∀ i, ∃ r, oracle i = Except.ok r)
    (payload : List Nat) (hp : payload.length = 32) (count : Int) :
    framesSent (sendManufacturerProprietaryCustom true true true true oracle 2 payload 0 count) =
      some (clampCount count).toNat := by
  obtain ⟨rs, hrs, hlen⟩ := runFrames_ok oracle h (clampCount count).toNat 0
  simp [sendManufacturerProprietaryCustom, hp, hrs, framesSent, hlen]

/-- Replacing the entry with the matching DSK makes it the first (and only)
match of a subsequent lookup. -/
theorem find_map_replace (x : StoredEntry) :
    ∀ es : List StoredEntry, es.any (fun e => e.dsk == x.dsk) = true →
    (es.map (fun e => if e.dsk == x.dsk then x else e)).find? (fun e => e.dsk == x.dsk) =
      some x := by
  intro es
  induction es with
  | nil => intro h; simp at h
  | cons e es ih =>
    intro h
    rw [List.map_cons]
    by_cases he : (e.dsk == x.dsk) = true
    · rw [if_pos he]
      exact List.find?_cons_of_pos _ (by simp)
    · have he' : (e.dsk == x.dsk) = false := by simpa using he
      rw [if_neg (by simp [he']), List.find?_cons_of_neg _ (by simp [he'])]
      exact ih (by simpa [List.any_cons, he'] using h)

/-- Appending a fresh entry to a store with no matching DSK makes it the
match of a subsequent lookup. -/
theorem find_append_self (x : StoredEntry) :
    ∀ es : List StoredEntry, es.any (fun e => e.dsk == x.dsk) = false →
    (es ++ [x]).find? (fun e => e.dsk == x.dsk) = some x := by
  intro es
  induction es with
  | nil => intro _; simp [List.find?]
  | cons e es ih =>
    intro h
    rw [List.any_cons, Bool.or_eq_false_iff] at h
    simp [List.find?, h.1, ih h.2]

/-- After an upsert, looking the entry up by its DSK finds it. -/
theorem getProvisioningEntry_upsert (store : List StoredEntry) (x : StoredEntry) :
    getProvisioningEntry (upsertEntry store x) x.dsk = some x := by
  unfold getProvisioningEntry upsertEntry
  by_cases h : store.any (fun e => e.dsk == x.dsk) = true
  · simp only [h, if_true]
    exact find_map_replace x store h
  · have h' : store.any (fun e => e.dsk == x.dsk) = false := by simpa using h
    simp only [h', Bool.false_eq_true, if_false]
    exact find_append_self x store h'

/-! ## Claims -/

/-- C1: the spec says that among hex payloads of 62, 63, 64, 65 and 66 hex
characters only 64 passes validation.  The code checks the hex-only regex
first and then the length of the buffer decoded by `Buffer.from(·, "hex")`,
which drops a trailing lone hex digit, so a 65-character payload decodes to
32 bytes and is accepted as well — the 65-character row below contradicts
the claim.  Non-hex characters are rejected regardless of length, as
claimed. -/
theorem c1_hex_length_table :
    hexOk (hexTo32ByteBuffer (String.mk (List.replicate 62 'a'))) = false ∧
    hexOk (hexTo32ByteBuffer (String.mk (List.replicate 63 'a'))) = false ∧
    hexOk (hexTo32ByteBuffer (String.mk (List.replicate 64 'a'))) = true ∧
    hexOk (hexTo32ByteBuffer (String.mk (List.replicate 65 'a'))) = true ∧
    hexOk (hexTo32ByteBuffer (String.mk (List.replicate 66 'a'))) = false ∧
    hexOk (hexTo32ByteBuffer (String.mk ('g' :: List.replicate 63 'a'))) = false := by
  decide

/-- C2: a brand-new provisioning entry that lists Long Range among its
supported protocols is stored `Inactive` even when the request asked for an
active entry; re-adding the same DSK without Long-Range support and with an
active request is stored `Active`. -/
theorem c2_longRange_new_entry_inactive
    (store : List StoredEntry) (e e2 : EntryRequest)
    (hnew : getProvisioningEntry store (normalizeDSK e.dsk) = none)
    (hLR : e.supportedProtocols.contains Protocols.ZWaveLongRange = true)
    (hact : e.statusActive = true)
    (hdsk : e2.dsk = e.dsk)
    (hLR2 : e2.supportedProtocols.contains Protocols.ZWaveLongRange = false)
    (hact2 : e2.statusActive = true) :
    (provisionSmartStartNode store e).2.status = ProvisioningEntryStatus.Inactive ∧
    (provisionSmartStartNode (provisionSmartStartNode store e).1 e2).2.status =
      ProvisioningEntryStatus.Active := by
  constructor
  · have hmem : Protocols.ZWaveLongRange ∈ e.supportedProtocols := by
      simpa using hLR
    simp [provisionSmartStartNode, hnew, hmem]
  · have hfound : getProvisioningEntry (provisionSmartStartNode store e).1
        (normalizeDSK e2.dsk) = some (provisionSmartStartNode store e).2 := by
      rw [hdsk]
      exact getProvisioningEntry_upsert store (provisionSmartStartNode store e).2
    generalize (provisionSmartStartNode store e).1 = store1 at hfound
    simp [provisionSmartStartNode, hfound, hact2]

/-- Witness for C2 at a concrete store and pair of requests. -/
theorem c2_longRange_new_entry_inactive_witness :
    getProvisioningEntry []
      (normalizeDSK "0000000000000000000000000000000000000000") = none ∧
    ((provisionSmartStartNode []
        ⟨"0000000000000000000000000000000000000000", true, SecurityClassesInput.absent,
          false, false, false, false, [Protocols.ZWaveLongRange], "ZWave"⟩).2.status =
        ProvisioningEntryStatus.Inactive ∧
      (provisionSmartStartNode
        (provisionSmartStartNode []
          ⟨"0000000000000000000000000000000000000000", true, SecurityClassesInput.absent,
            false, false, false, false, [Protocols.ZWaveLongRange], "ZWave"⟩).1
        ⟨"0000000000000000000000000000000000000000", true, SecurityClassesInput.absent,
          false, false, false, false, [], "ZWave"⟩).2.status =
        ProvisioningEntryStatus.Active) :=
  ⟨rfl, c2_longRange_new_entry_inactive [] _ _ rfl (by decide) rfl rfl (by decide) rfl⟩

/-- C3: when a request supplies both the object form of the security-class
flags and the individually-named flags, the encoded class set contains a
class exactly when either representation asserts it true; a true flag from
one source is never dropped by a false flag from the other. -/
theorem c3_securityClasses_union (obj indiv : SecurityFlags) (sc : Nat)
    (hsc : sc = 0 ∨ sc = 1 ∨ sc = 2 ∨ sc = 7) :
    (buildSecurityClasses (SecurityClassesInput.obj obj) indiv).contains sc =
      (classFlag obj sc || classFlag indiv sc) := by
  obtain ⟨a, b, c, d⟩ := obj
  obtain ⟨a2, b2, c2, d2⟩ := indiv
  rcases hsc with h | h | h | h <;> subst h <;>
    revert a b c d a2 b2 c2 d2 <;> decide

/-- Witness for C3 at concrete flag assignments and class 2. -/
theorem c3_securityClasses_union_witness :
    ((2 : Nat) = 0 ∨ (2 : Nat) = 1 ∨ (2 : Nat) = 2 ∨ (2 : Nat) = 7) ∧
    (buildSecurityClasses (SecurityClassesInput.obj ⟨true, false, false, false⟩)
        ⟨false, true, false, false⟩).contains 2 =
      (classFlag ⟨true, false, false, false⟩ 2 || classFlag ⟨false, true, false, false⟩ 2) :=
  ⟨by decide, c3_securityClasses_union ⟨true, false, false, false⟩
    ⟨false, true, false, false⟩ 2 (by decide)⟩

/-- C4 counterexample: with a client object present whose `driverReady` flag
is not yet set — the Starting phase of an in-flight start — a second START
is not rejected with the already-started error; it proceeds and closes the
in-flight client. -/
theorem c4_start_while_starting_not_rejected :
    handleStart (some ⟨false⟩) = StartOutcome.proceeds true ∧
    handleStart (some ⟨false⟩) ≠ StartOutcome.alreadyStartedError := by
  decide

/-- C4 amended: a START issued while the driver is Ready (client exists and
`driverReady` is set) fails with the already-started error and touches
nothing; a START issued while a start is still in flight is not rejected —
it proceeds, closing and replacing the existing client. -/
theorem c4_start_gate_amended (c : ZClientState) :
    (c.driverReady = true → handleStart (some c) = StartOutcome.alreadyStartedError) ∧
    (c.driverReady = false → handleStart (some c) = StartOutcome.proceeds true) := by
  obtain ⟨r⟩ := c
  cases r <;> simp [handleStart]

/-- Witness for the amended C4 at both concrete client states. -/
theorem c4_start_gate_amended_witness :
    handleStart (some ⟨true⟩) = StartOutcome.alreadyStartedError ∧
    handleStart (some ⟨false⟩) = StartOutcome.proceeds true :=
  ⟨(c4_start_gate_amended ⟨true⟩).1 rfl, (c4_start_gate_amended ⟨false⟩).2 rfl⟩

/-- C5: a socket frame that is not valid JSON is not answered with an ERROR
response — the catch block of `handleMessage` recomputes
`JSON.parse(message).requestId`, which throws again, so the exception
escapes the handler instead of being surfaced to the client (and, as an
unhandled promise rejection, can take the process down). -/
theorem c5_invalid_json_escapes (dispatch : ParsedMsg → MessageOutcome) :
    handleMessage RawMessage.invalidJson dispatch = MessageOutcome.escaped :=
  rfl

/-- C6: the count argument of the custom vendor-command send is clamped into
[1, 100] and never causes an error: with every frame send succeeding and a
valid 32-byte payload, counts -5, 0, 1, 100, 101 and 1000 attempt exactly
1, 1, 1, 100, 100 and 100 frames. -/
theorem c6_count_clamping (oracle : Nat → Except String String)
    (h : ∀ i, ∃ r, oracle i = Except.ok r)
    (payload : List Nat) (hp : payload.length = 32) :
    framesSent (sendManufacturerProprietaryCustom true true true true oracle 2 payload 0 (-5)) =
      some 1 ∧
    framesSent (sendManufacturerProprietaryCustom true true true true oracle 2 payload 0 0) =
      some 1 ∧
    framesSent (sendManufacturerProprietaryCustom true true true true oracle 2 payload 0 1) =
      some 1 ∧
    framesSent (sendManufacturerProprietaryCustom true true true true oracle 2 payload 0 100) =
      some 100 ∧
    framesSent (sendManufacturerProprietaryCustom true true true true oracle 2 payload 0 101) =
      some 100 ∧
    framesSent (sendManufacturerProprietaryCustom true true true true oracle 2 payload 0 1000) =
      some 100 ∧
    (∀ count : Int, 1 ≤ clampCount count ∧ clampCount count ≤ 100) := by
  refine ⟨?_, ?_, ?_, ?_, ?_, ?_, ?_⟩
  · rw [framesSent_eq_clamp oracle h payload hp (-5)]; decide
  · rw [framesSent_eq_clamp oracle h payload hp 0]; decide
  · rw [framesSent_eq_clamp oracle h payload hp 1]; decide
  · rw [framesSent_eq_clamp oracle h payload hp 100]; decide
  · rw [framesSent_eq_clamp oracle h payload hp 101]; decide
  · rw [framesSent_eq_clamp oracle h payload hp 1000]; decide
  · intro count
    simp only [clampCount]
    constructor <;> split_ifs <;> omega

/-- Witness for C6 with a constant succeeding oracle and the zero payload. -/
theorem c6_count_clamping_witness :
    (∀ i : Nat, ∃ r, (fun _ : Nat => Except.ok (ε := String) "ok") i = Except.ok r) ∧
    (List.replicate 32 0).length = 32 ∧
    framesSent (sendManufacturerProprietaryCustom true true true true
      (fun _ => Except.ok "ok") 2 (List.replicate 32 0) 0 (-5)) = some 1 :=
  ⟨fun _ => ⟨"ok", rfl⟩, by decide,
    (c6_count_clamping (fun _ => Except.ok "ok") (fun _ => ⟨"ok", rfl⟩)
      (List.replicate 32 0) (by decide)).1⟩

/-- C7: frames are sent sequentially and the first failing frame aborts the
whole call with that frame's error; the successful results accumulated
before the failure are not part of the returned value (the call returns only
the error). -/
theorem c7_frame_failure_aborts (oracle : Nat → Except String String)
    (payload : List Nat) (count : Int) (k : Nat) (e : String)
    (hp : payload.length = 32)
    (hk : k < (clampCount count).toNat)
    (hsucc : ∀ j, j < k → ∃ r, oracle j = Except.ok r)
    (hfail : oracle k = Except.error e) :
    sendManufacturerProprietaryCustom true true true true oracle 2 payload 0 count =
      Except.error e := by
  have hrun : runFrames oracle 0 (clampCount count).toNat = Except.error e := by
    apply runFrames_error oracle e k (clampCount count).toNat 0 hk
    · intro j hj
      simpa using hsucc j hj
    · simpa using hfail
  simp [sendManufacturerProprietaryCustom, hp, hrun]

/-- Witness for C7: the second of five requested frames fails, and the call
returns exactly that frame's error. -/
theorem c7_frame_failure_aborts_witness :
    (1 < (clampCount 5).toNat) ∧
    sendManufacturerProprietaryCustom true true true true
      (fun i => if i = 0 then Except.ok "ok" else Except.error "boom")
      2 (List.replicate 32 0) 0 5 = Except.error "boom" := by
  refine ⟨by decide, c7_frame_failure_aborts _ _ 5 1 "boom" (by decide) (by decide) ?_ rfl⟩
  intro j hj
  have hj0 : j = 0 := by omega
  subst hj0
  exact ⟨"ok", rfl⟩

/-- C8: with the driver not ready, `GET_NODES` answers `NODES` with an empty
array while every other provisioning and node operation (given its required
fields) answers the not-ready error. -/
theorem c8_get_nodes_empty_when_not_ready (nodeIds : List Nat)
    (dsk payloadHex : String) (v : JSVal) (found validNodeId activeIsBool : Bool)
    (hdsk : dsk ≠ "") :
    handleGetNodes false nodeIds = RouterResp.respNodes [] ∧
    handleGetProvisioningEntries false = RouterResp.respError "Driver not ready" ∧
    handleGetProvisioningEntry false found = RouterResp.respError "Driver not ready" ∧
    handleAddProvisioningEntry false dsk = RouterResp.respError "Driver not ready" ∧
    handleUpdateProvisioningEntryStatus false dsk activeIsBool =
      RouterResp.respError "Driver not ready" ∧
    handleDeleteProvisioningEntry false dsk = RouterResp.respError "Driver not ready" ∧
    handleGetNode false validNodeId found = RouterResp.respError "Driver not ready" ∧
    handleSendCommand false payloadHex v = RouterResp.respError "Driver not ready" := by
  have h : (dsk == "") = false := beq_eq_false_iff_ne.mpr hdsk
  simp [handleGetNodes, handleGetProvisioningEntries, handleGetProvisioningEntry,
    handleAddProvisioningEntry, handleUpdateProvisioningEntryStatus,
    handleDeleteProvisioningEntry, handleGetNode, handleSendCommand, h]

/-- Witness for C8 at concrete request data. -/
theorem c8_get_nodes_empty_when_not_ready_witness :
    ("X" : String) ≠ "" ∧
    (handleGetNodes false [3] = RouterResp.respNodes [] ∧
      handleGetProvisioningEntries false = RouterResp.respError "Driver not ready" ∧
      handleGetProvisioningEntry false true = RouterResp.respError "Driver not ready" ∧
      handleAddProvisioningEntry false "X" = RouterResp.respError "Driver not ready" ∧
      handleUpdateProvisioningEntryStatus false "X" true =
        RouterResp.respError "Driver not ready" ∧
      handleDeleteProvisioningEntry false "X" = RouterResp.respError "Driver not ready" ∧
      handleGetNode false true true = RouterResp.respError "Driver not ready" ∧
      handleSendCommand false "aa" JSVal.undef = RouterResp.respError "Driver not ready") :=
  ⟨by decide, by
    have h := c8_get_nodes_empty_when_not_ready [3] "X" "aa" JSVal.undef true true true
      (by decide)
    exact ⟨h.1, h.2.1, h.2.2.1, h.2.2.2.1, h.2.2.2.2.1, h.2.2.2.2.2.1, h.2.2.2.2.2.2.1,
      h.2.2.2.2.2.2.2⟩⟩

/-- C9: once the interceptor is attached, an inbound command of the vendor
class 0x91 produces the structured event and is not forwarded to the
original handler, and every command of another class is forwarded unchanged.
The two hypotheses record the zwave-js class invariant that a
`ManufacturerProprietaryCC` instance (or a command whose constructor carries
that name) always has `ccId` 0x91. -/
theorem c9_interceptor_routing (nodeId : Nat) (c : InboundCommand)
    (hinst : c.isMPInstance = true → c.ccId = 0x91)
    (hctor : c.ctorName = "ManufacturerProprietaryCC" → c.ccId = 0x91) :
    (c.ccId = 0x91 →
      wrappedHandleCommand nodeId c = HandleCommandOutcome.intercepted
        ⟨nodeId, c.manufacturerId, c.payload, (c.payload.map List.length).getD 0,
          c.endpointIndex⟩) ∧
    (c.ccId ≠ 0x91 → wrappedHandleCommand nodeId c = HandleCommandOutcome.passedThrough c) := by
  constructor
  · intro h91
    simp [wrappedHandleCommand, h91]
  · intro hne
    have h1 : c.isMPInstance = false := by
      cases hb : c.isMPInstance
      · rfl
      · exact absurd (hinst hb) hne
    have h2 : (c.ctorName == "ManufacturerProprietaryCC") = false := by
      rw [beq_eq_false_iff_ne]
      intro hc
      exact hne (hctor hc)
    have h3 : (c.ccId == 0x91) = false := by
      rw [beq_eq_false_iff_ne]
      exact hne
    simp [wrappedHandleCommand, h1, h2, h3]

/-- Witness for C9: a concrete vendor-class command is intercepted with the
expected event, and a concrete other-class command passes through. -/
theorem c9_interceptor_routing_witness :
    wrappedHandleCommand 7 ⟨145, true, "ManufacturerProprietaryCC", 272, some [1, 2, 3], 0⟩ =
      HandleCommandOutcome.intercepted ⟨7, 272, some [1, 2, 3], 3, 0⟩ ∧
    wrappedHandleCommand 7 ⟨144, false, "BasicCC", 0, none, 0⟩ =
      HandleCommandOutcome.passedThrough ⟨144, false, "BasicCC", 0, none, 0⟩ :=
  ⟨(c9_interceptor_routing 7 ⟨145, true, "ManufacturerProprietaryCC", 272, some [1, 2, 3], 0⟩
      (fun _ => rfl) (fun _ => rfl)).1 rfl,
    (c9_interceptor_routing 7 ⟨144, false, "BasicCC", 0, none, 0⟩
      (fun h => absurd h (by decide)) (fun h => absurd h (by decide))).2 (by decide)⟩

/-- C10 counterexample: a `SEND_COMMAND` request whose `nodeId` is the
integer 0 — a value that does not convert to a non-zero number — is not sent
to node 2 as the claim states: `Number.isInteger(0)` is true, so the handler
uses 0 as the target node id. -/
theorem c10_integer_zero_not_defaulted :
    numericNodeId (JSVal.intV 0) = 0 ∧
    handleSendCommand true (String.mk (List.replicate 64 'a')) (JSVal.intV 0) =
      RouterResp.respCommand 0 ∧
    ((0 : Int) ≠ 2) := by
  decide

/-- C10 amended: a `SEND_COMMAND` request whose `nodeId` is absent, null, or
a non-integer value that does not convert to a non-zero number is silently
dispatched to node id 2 rather than rejected; a `nodeId` that is already an
integer — including 0 — is used as-is. -/
theorem c10_nodeId_default_amended (payloadHex : String) (v : JSVal)
    (hok : hexOk (hexTo32ByteBuffer payloadHex) = true)
    (hne : payloadHex ≠ "") :
    handleSendCommand true payloadHex v = RouterResp.respCommand (numericNodeId v) ∧
    numericNodeId JSVal.undef = 2 ∧
    numericNodeId JSVal.nullV = 2 ∧
    numericNodeId (JSVal.strV "unknown") = 2 ∧
    numericNodeId (JSVal.strV "0") = 2 ∧
    (∀ n : Int, numericNodeId (JSVal.intV n) = n) := by
  refine ⟨?_, by decide, by decide, by decide, by decide, fun n => rfl⟩
  have h1 : (payloadHex == "") = false := beq_eq_false_iff_ne.mpr hne
  cases heq : hexTo32ByteBuffer payloadHex with
  | error e => simp [hexOk, heq] at hok
  | ok bs => simp [handleSendCommand, h1, heq]

/-- Witness for the amended C10 at a concrete valid payload and an absent
nodeId. -/
theorem c10_nodeId_default_amended_witness :
    hexOk (hexTo32ByteBuffer (String.mk (List.replicate 64 'a'))) = true ∧
    String.mk (List.replicate 64 'a') ≠ "" ∧
    handleSendCommand true (String.mk (List.replicate 64 'a')) JSVal.undef =
      RouterResp.respCommand (numericNodeId JSVal.undef) :=
  ⟨by decide, by decide,
    (c10_nodeId_default_amended (String.mk (List.replicate 64 'a')) JSVal.undef
      (by decide) (by decide)).1⟩

end Digilock
